import Mathlib

/-!
Verification of the parametric sweep and surrogate-model engine of the
gplugins repository (the `gplugins/sax` Model/Parameter machinery).

The engine itself (Parameter validation, dense/corners sample grids, the
simulation cache, sweep failure handling, the sdict broadcast contract,
layer-stack materialization and the interpolation fallback) is exercised by
the repository's notebooks but its implementation modules are not present in
the source tree, so every definition below is modelled from the
specification's words and marked as such.  Numeric values are embedded as
exact rationals (ℚ).
-/

namespace GplSax

/-- Modelled from the spec: a swept or fixed scalar quantity with
bounds, nominal value and grid spacing (`gplugins/sax/parameter.py`'s
`NamedParameter`, absent from the source tree). -/
structure Parameter where
  min_value : ℚ
  max_value : ℚ
  nominal_value : ℚ
  step : ℚ
deriving DecidableEq

/-- Modelled from the spec: a Parameter is valid when
`min_value ≤ nominal_value ≤ max_value` and the step is positive unless the
parameter is constant (`min_value == max_value`). -/
def Parameter.valid (p : Parameter) : Bool :=
  decide (p.min_value ≤ p.max_value) &&
  decide (p.min_value ≤ p.nominal_value) &&
  decide (p.nominal_value ≤ p.max_value) &&
  (decide (0 < p.step) || decide (p.min_value = p.max_value))

/-- Modelled from the spec: the error raised when a Parameter's
bounds/step/nominal are inconsistent. -/
inductive ParameterError where
  | invalidParameter
deriving DecidableEq

/-- Modelled from the spec: Parameter construction; fails with
`InvalidParameterError` exactly when validation fails, surfaced immediately
to the caller. -/
def mkParameter (mn mx nom st : ℚ) : Except ParameterError Parameter :=
  let p : Parameter := ⟨mn, mx, nom, st⟩
  if p.valid then Except.ok p else Except.error ParameterError.invalidParameter

/-- Modelled from the spec: the two sampling policies (`dense`, a.k.a.
"arange", and `corners`). -/
inductive SweepPolicy where
  | dense
  | corners
deriving DecidableEq

/-- Keep the first occurrence of every value, dropping later duplicates. -/
def dedupFirstSeen (l : List ℚ) : List ℚ :=
  l.foldl (fun acc v => if v ∈ acc then acc else acc ++ [v]) []

/-- Modelled from the spec: `sample_values(policy)`.  For `dense`, the
arithmetic progression from `min_value` by `step`, clamped to not overshoot
`max_value` (a constant parameter yields `[nominal_value]` regardless of
`step`).  For `corners`, the de-duplicated `[min, nominal, max]` preserving
first-seen order. -/
def Parameter.sample_values (p : Parameter) : SweepPolicy → List ℚ
  | SweepPolicy.dense =>
      if p.min_value = p.max_value then [p.nominal_value]
      else (List.range ((⌊(p.max_value - p.min_value) / p.step⌋).toNat + 1)).map
        (fun i : Nat => p.min_value + (i : ℚ) * p.step)
  | SweepPolicy.corners =>
      dedupFirstSeen [p.min_value, p.nominal_value, p.max_value]

/-- Modelled from the spec: the SampleGrid generator — the Cartesian product
of each Parameter's `sample_values(policy)`, row-major over parameters in
their declared order. -/
def buildGrid (ps : List Parameter) (policy : SweepPolicy) : List (List ℚ) :=
  match ps with
  | [] => [[]]
  | p :: rest =>
      (p.sample_values policy).flatMap (fun v => (buildGrid rest policy).map (fun t => v :: t))

/-- The width parameter of the notebook's rib-waveguide sweep. -/
def widthParam : Parameter := ⟨0.4, 0.6, 0.5, 0.05⟩

/-- The wavelength parameter of the notebook's rib-waveguide sweep. -/
def wavelengthParam : Parameter := ⟨1.545, 1.555, 1.55, 0.005⟩

/-- The core-thickness parameter of the notebook's rib-waveguide sweep
(its step 0.1 exceeds the 0.02 range). -/
def coreThicknessParam : Parameter := ⟨0.21, 0.23, 0.22, 0.1⟩

theorem length_flatMap_cons {α : Type} (vs : List α) (grid : List (List α)) :
    (vs.flatMap (fun v => grid.map (fun t => v :: t))).length = vs.length * grid.length := by
  induction vs with
  | nil => simp
  | cons v vs ih =>
      simp only [List.flatMap_cons, List.length_append, List.length_map, List.length_cons, ih]
      ring

theorem sample_values_dense_length (p : Parameter) :
    (p.sample_values SweepPolicy.dense).length
      = (⌊(p.max_value - p.min_value) / p.step⌋).toNat + 1 := by
  by_cases h : p.min_value = p.max_value
  · simp only [Parameter.sample_values, if_pos h, List.length_singleton]
    rw [h]
    norm_num
  · simp only [Parameter.sample_values, if_neg h, List.length_map, List.length_range]

theorem buildGrid_length (ps : List Parameter) (policy : SweepPolicy) :
    (buildGrid ps policy).length
      = (ps.map (fun p => (p.sample_values policy).length)).prod := by
  induction ps with
  | nil => simp [buildGrid]
  | cons p rest ih =>
      simp only [buildGrid, length_flatMap_cons, ih, List.map_cons, List.prod_cons]

theorem buildGrid_row_length (ps : List Parameter) (policy : SweepPolicy) :
    ∀ r ∈ buildGrid ps policy, r.length = ps.length := by
  induction ps with
  | nil => intro r hr; simp [buildGrid] at hr; simp [hr]
  | cons p rest ih =>
      intro r hr
      simp only [buildGrid, List.mem_flatMap, List.mem_map] at hr
      obtain ⟨v, _, t, ht, rfl⟩ := hr
      simp [ih t ht]

theorem dense_grid_card_formula (ps : List Parameter) :
    (buildGrid ps SweepPolicy.dense).length
      = (ps.map (fun p => (⌊(p.max_value - p.min_value) / p.step⌋).toNat + 1)).prod := by
  rw [buildGrid_length]
  congr 1
  exact List.map_congr_left (fun p _ => sample_values_dense_length p)

theorem width_dense_count :
    (⌊(widthParam.max_value - widthParam.min_value) / widthParam.step⌋).toNat + 1 = 5 := by
  have h : ⌊(widthParam.max_value - widthParam.min_value) / widthParam.step⌋ = 4 := by
    norm_num [widthParam]
  rw [h]
  decide

theorem wavelength_dense_count :
    (⌊(wavelengthParam.max_value - wavelengthParam.min_value) / wavelengthParam.step⌋).toNat + 1
      = 3 := by
  have h : ⌊(wavelengthParam.max_value - wavelengthParam.min_value) / wavelengthParam.step⌋ = 2 := by
    norm_num [wavelengthParam]
  rw [h]
  decide

theorem core_thickness_dense_count :
    (⌊(coreThicknessParam.max_value - coreThicknessParam.min_value)
        / coreThicknessParam.step⌋).toNat + 1 = 1 := by
  norm_num [coreThicknessParam]

/-- C1: for every dense-policy sweep, the SampleGrid cardinality is the
product over the parameters of `floor((max - min)/step) + 1`; in particular
the notebook's three-parameter sweep (width 5 values, wavelength 3 values,
core thickness 1 value) yields exactly 5 * 3 * 1 = 15 rows. -/
theorem dense_grid_cardinality :
    (∀ ps : List Parameter,
      (buildGrid ps SweepPolicy.dense).length
        = (ps.map (fun p => (⌊(p.max_value - p.min_value) / p.step⌋).toNat + 1)).prod) ∧
    (buildGrid [widthParam, wavelengthParam, coreThicknessParam] SweepPolicy.dense).length
      = 15 := by
  refine ⟨dense_grid_card_formula, ?_⟩
  rw [dense_grid_card_formula]
  rw [List.map_cons, List.map_cons, List.map_cons, List.map_nil]
  rw [width_dense_count, wavelength_dense_count, core_thickness_dense_count]
  norm_num

theorem valid_step_pos (p : Parameter) (hv : p.valid = true)
    (hne : p.min_value ≠ p.max_value) : 0 < p.step := by
  unfold Parameter.valid at hv
  simp only [Bool.and_eq_true, Bool.or_eq_true, decide_eq_true_eq] at hv
  rcases hv.2 with h | h
  · exact h
  · exact absurd h hne

theorem valid_min_le_max (p : Parameter) (hv : p.valid = true) :
    p.min_value ≤ p.max_value := by
  unfold Parameter.valid at hv
  simp only [Bool.and_eq_true, Bool.or_eq_true, decide_eq_true_eq] at hv
  exact hv.1.1.1

theorem dense_mem_bounds (p : Parameter) (hv : p.valid = true)
    (hne : p.min_value ≠ p.max_value) :
    ∀ x ∈ p.sample_values SweepPolicy.dense, p.min_value ≤ x ∧ x ≤ p.max_value := by
  have hstep := valid_step_pos p hv hne
  have hlt : p.min_value < p.max_value := lt_of_le_of_ne (valid_min_le_max p hv) hne
  intro x hx
  unfold Parameter.sample_values at hx
  rw [if_neg hne] at hx
  obtain ⟨i, hi, rfl⟩ := List.mem_map.mp hx
  have hi' : i ≤ (⌊(p.max_value - p.min_value) / p.step⌋).toNat := by
    have := List.mem_range.mp hi
    omega
  constructor
  · have : (0:ℚ) ≤ (i : ℚ) * p.step := by positivity
    linarith
  · have hq : (0:ℚ) ≤ (p.max_value - p.min_value) / p.step := by
      apply div_nonneg <;> linarith
    have hfl : (0:ℤ) ≤ ⌊(p.max_value - p.min_value) / p.step⌋ := Int.floor_nonneg.mpr hq
    have h1 : ((i:ℤ) : ℚ) ≤ ((⌊(p.max_value - p.min_value) / p.step⌋ : ℤ) : ℚ) := by
      have : (i:ℤ) ≤ ⌊(p.max_value - p.min_value) / p.step⌋ := by omega
      exact_mod_cast this
    have h2 : ((⌊(p.max_value - p.min_value) / p.step⌋ : ℤ) : ℚ)
        ≤ (p.max_value - p.min_value) / p.step := Int.floor_le _
    have h3 : (i : ℚ) ≤ (p.max_value - p.min_value) / p.step := by
      exact_mod_cast le_trans h1 h2
    have h4 : (i : ℚ) * p.step ≤ ((p.max_value - p.min_value) / p.step) * p.step :=
      mul_le_mul_of_nonneg_right h3 (le_of_lt hstep)
    rw [div_mul_cancel₀ _ (ne_of_gt hstep)] at h4
    linarith

theorem dense_max_mem (p : Parameter) (hv : p.valid = true)
    (hne : p.min_value ≠ p.max_value)
    (h : ∃ k : Nat, p.max_value = p.min_value + (k : ℚ) * p.step) :
    p.max_value ∈ p.sample_values SweepPolicy.dense := by
  have hstep := valid_step_pos p hv hne
  obtain ⟨k, hk⟩ := h
  have hq : (p.max_value - p.min_value) / p.step = (k : ℚ) := by
    rw [hk]
    field_simp
  unfold Parameter.sample_values
  rw [if_neg hne]
  refine List.mem_map.mpr ⟨k, ?_, hk.symm⟩
  rw [hq, Int.floor_natCast, Int.toNat_natCast]
  exact List.mem_range.mpr (Nat.lt_succ_self k)

theorem widthParam_dense_values :
    widthParam.sample_values SweepPolicy.dense = [0.4, 0.45, 0.5, 0.55, 0.6] := by
  unfold widthParam Parameter.sample_values
  rw [if_neg (by norm_num)]
  norm_num
  rw [show Int.toNat 4 + 1 = 5 from by decide]
  simp [List.range_succ]
  norm_num

theorem widthParam_valid : widthParam.valid = true := by
  simp only [Parameter.valid, widthParam, Bool.and_eq_true, Bool.or_eq_true, decide_eq_true_eq]
  norm_num

/-- C2: `sample_values(dense)` is the arithmetic progression
`min, min+step, min+2*step, ...` clamped so it never overshoots `max_value`,
with `max_value` included whenever the progression lands on it exactly;
`Parameter(min=0.4, max=0.6, nominal=0.5, step=0.05)` yields
`[0.4, 0.45, 0.5, 0.55, 0.6]`, and a constant parameter
(`min_value == max_value`) yields `[nominal_value]` regardless of `step`. -/
theorem sample_values_dense_spec :
    (∀ p : Parameter, p.min_value = p.max_value →
        p.sample_values SweepPolicy.dense = [p.nominal_value]) ∧
    (∀ p : Parameter, p.valid = true → p.min_value ≠ p.max_value →
        (p.sample_values SweepPolicy.dense
            = (List.range ((⌊(p.max_value - p.min_value) / p.step⌋).toNat + 1)).map
                (fun i : Nat => p.min_value + (i : ℚ) * p.step)) ∧
        (∀ x ∈ p.sample_values SweepPolicy.dense, p.min_value ≤ x ∧ x ≤ p.max_value) ∧
        ((∃ k : Nat, p.max_value = p.min_value + (k : ℚ) * p.step) →
            p.max_value ∈ p.sample_values SweepPolicy.dense)) ∧
    widthParam.sample_values SweepPolicy.dense = [0.4, 0.45, 0.5, 0.55, 0.6] := by
  refine ⟨?_, ?_, widthParam_dense_values⟩
  · intro p hp
    unfold Parameter.sample_values
    rw [if_pos hp]
  · intro p hv hne
    refine ⟨?_, dense_mem_bounds p hv hne, dense_max_mem p hv hne⟩
    unfold Parameter.sample_values
    rw [if_neg hne]

/-- Witness for C2 at concrete inputs: the constant parameter
`⟨10, 10, 10, 0⟩` yields `[10]`, every sample of the width parameter stays
within its bounds, and the width parameter's maximum 0.6 is hit exactly. -/
theorem sample_values_dense_spec_witness :
    Parameter.sample_values ⟨10, 10, 10, 0⟩ SweepPolicy.dense = [(10 : ℚ)] ∧
    (widthParam.min_value ≤ 0.45 ∧ (0.45 : ℚ) ≤ widthParam.max_value) ∧
    widthParam.max_value ∈ widthParam.sample_values SweepPolicy.dense := by
  refine ⟨sample_values_dense_spec.1 ⟨10, 10, 10, 0⟩ rfl, ?_, ?_⟩
  · refine (sample_values_dense_spec.2.1 widthParam widthParam_valid
      (by norm_num [widthParam])).2.1 0.45 ?_
    rw [sample_values_dense_spec.2.2]
    norm_num
  · exact (sample_values_dense_spec.2.1 widthParam widthParam_valid
      (by norm_num [widthParam])).2.2 ⟨4, by norm_num [widthParam]⟩

theorem core_thickness_dense_values :
    coreThicknessParam.sample_values SweepPolicy.dense = [0.21] := by
  unfold coreThicknessParam Parameter.sample_values
  rw [if_neg (by norm_num)]
  norm_num
  simp [List.range_succ]

/-- C10: a trainable parameter whose step exceeds its range while
`min_value ≠ max_value` (core thickness: min 0.21, max 0.23, step 0.1)
contributes exactly one sample value to the dense grid, so the notebook's
three-parameter dense sweep yields exactly 15 rows of 3 columns each. -/
theorem step_exceeding_range_single_value :
    coreThicknessParam.min_value ≠ coreThicknessParam.max_value ∧
    coreThicknessParam.sample_values SweepPolicy.dense = [0.21] ∧
    (buildGrid [widthParam, wavelengthParam, coreThicknessParam] SweepPolicy.dense).length
      = 15 ∧
    (buildGrid [widthParam, wavelengthParam, coreThicknessParam] SweepPolicy.dense).all
      (fun r => r.length == 3) = true := by
  refine ⟨by norm_num [coreThicknessParam], core_thickness_dense_values, ?_, ?_⟩
  · rw [dense_grid_card_formula]
    rw [List.map_cons, List.map_cons, List.map_cons, List.map_nil]
    rw [width_dense_count, wavelength_dense_count, core_thickness_dense_count]
    norm_num
  · rw [List.all_eq_true]
    intro r hr
    have := buildGrid_row_length [widthParam, wavelengthParam, coreThicknessParam]
      SweepPolicy.dense r hr
    simpa using this

theorem dedupFirstSeen_triple (a b c : ℚ) :
    dedupFirstSeen [a, b, c] =
      if b = a then (if c = a then [a] else [a, c])
      else if c = a ∨ c = b then [a, b] else [a, b, c] := by
  unfold dedupFirstSeen
  simp only [List.foldl_cons, List.foldl_nil, List.not_mem_nil, if_false, List.nil_append,
    List.mem_singleton, List.mem_cons, List.mem_append]
  split_ifs <;> simp_all

theorem corners_length_card (p : Parameter) :
    (p.sample_values SweepPolicy.corners).length
      = ({p.min_value, p.nominal_value, p.max_value} : Finset ℚ).card := by
  obtain ⟨a, c, b, st⟩ := p
  show (dedupFirstSeen [a, b, c]).length = ({a, b, c} : Finset ℚ).card
  rw [dedupFirstSeen_triple]
  by_cases h1 : b = a
  · by_cases h2 : c = a
    · subst h1; subst h2; simp
    · subst h1
      rw [if_pos rfl, if_neg h2, Finset.insert_idem, Finset.card_pair (Ne.symm h2)]
      simp
  · by_cases h2 : c = a ∨ c = b
    · rw [if_neg h1, if_pos h2]
      rcases h2 with h2 | h2 <;> subst h2
      · rw [Finset.insert_eq_self.mpr (by simp), Finset.card_pair h1]
        simp
      · rw [show ({a, c, c} : Finset ℚ) = {a, c} from by ext x; simp,
          Finset.card_pair (Ne.symm h1)]
        simp
    · push_neg at h2
      rw [if_neg h1, if_neg (by tauto)]
      rw [Finset.card_insert_of_not_mem (by simp [Ne.symm h1, Ne.symm h2.1]),
        Finset.card_pair (Ne.symm h2.2)]
      simp

/-- C6: `sample_values(corners)` is the de-duplicated
`[min_value, nominal_value, max_value]` preserving first-seen order
(spelled out case by case), and the corners-policy SampleGrid cardinality is
the product over the parameters of the number of distinct values among
`{min, nominal, max}` — a parameter with `min == nominal == max`
contributing exactly 1 (the singleton-set case). -/
theorem corners_sample_and_grid_cardinality :
    (∀ p : Parameter,
        p.sample_values SweepPolicy.corners
          = if p.nominal_value = p.min_value then
              (if p.max_value = p.min_value then [p.min_value] else [p.min_value, p.max_value])
            else if p.max_value = p.min_value ∨ p.max_value = p.nominal_value then
              [p.min_value, p.nominal_value]
            else [p.min_value, p.nominal_value, p.max_value]) ∧
    (∀ ps : List Parameter,
        (buildGrid ps SweepPolicy.corners).length
          = (ps.map
              (fun p => ({p.min_value, p.nominal_value, p.max_value} : Finset ℚ).card)).prod) := by
  constructor
  · intro p
    show dedupFirstSeen [p.min_value, p.nominal_value, p.max_value] = _
    exact dedupFirstSeen_triple p.min_value p.nominal_value p.max_value
  · intro ps
    rw [buildGrid_length]
    congr 1
    exact List.map_congr_left (fun p _ => corners_length_card p)

theorem valid_iff (mn mx nom st : ℚ) :
    Parameter.valid ⟨mn, mx, nom, st⟩ = true
      ↔ (mn ≤ mx ∧ mn ≤ nom ∧ nom ≤ mx ∧ (0 < st ∨ mn = mx)) := by
  simp only [Parameter.valid, Bool.and_eq_true, Bool.or_eq_true, decide_eq_true_eq]
  tauto

theorem mkParameter_error_iff (mn mx nom st : ℚ) :
    mkParameter mn mx nom st = Except.error ParameterError.invalidParameter
      ↔ (mx < mn ∨ nom < mn ∨ mx < nom ∨ (st ≤ 0 ∧ mn ≠ mx)) := by
  unfold mkParameter
  by_cases h : Parameter.valid ⟨mn, mx, nom, st⟩ = true
  · rw [if_pos h]
    rw [valid_iff] at h
    simp only [reduceCtorEq, false_iff]
    push_neg
    obtain ⟨h1, h2, h3, h4⟩ := h
    refine ⟨by linarith, by linarith, by linarith, ?_⟩
    intro hst
    rcases h4 with h4 | h4
    · exact absurd hst (not_le.mpr h4)
    · exact h4
  · rw [if_neg h]
    simp only [true_iff]
    rw [valid_iff] at h
    push_neg at h
    by_cases h1 : mn ≤ mx
    · by_cases h2 : mn ≤ nom
      · by_cases h3 : nom ≤ mx
        · have h4 := h h1 h2 h3
          push_neg at h4
          exact Or.inr (Or.inr (Or.inr ⟨h4.1, h4.2⟩))
        · exact Or.inr (Or.inr (Or.inl (not_le.mp h3)))
      · exact Or.inr (Or.inl (not_le.mp h2))
    · exact Or.inl (not_le.mp h1)

/-- C8: `mkParameter` fails with `InvalidParameterError` exactly when
`min_value > max_value`, or `nominal_value` lies outside
`[min_value, max_value]`, or `step ≤ 0` while `min_value ≠ max_value`; a
parameter satisfying none of these conditions constructs successfully, with
the error (when any) surfaced immediately as the construction result. -/
theorem mkParameter_validation :
    (∀ mn mx nom st : ℚ,
        mkParameter mn mx nom st = Except.error ParameterError.invalidParameter
          ↔ (mx < mn ∨ nom < mn ∨ mx < nom ∨ (st ≤ 0 ∧ mn ≠ mx))) ∧
    (∀ mn mx nom st : ℚ,
        mkParameter mn mx nom st = Except.ok (⟨mn, mx, nom, st⟩ : Parameter)
          ↔ ¬(mx < mn ∨ nom < mn ∨ mx < nom ∨ (st ≤ 0 ∧ mn ≠ mx))) := by
  refine ⟨mkParameter_error_iff, ?_⟩
  intro mn mx nom st
  rw [← mkParameter_error_iff]
  unfold mkParameter
  by_cases h : Parameter.valid ⟨mn, mx, nom, st⟩ = true
  · rw [if_pos h]
    simp
  · rw [if_neg h]
    simp

/-- Witness for C8 at concrete inputs: `⟨0.4, 0.6, 0.5, 0.05⟩` constructs
successfully while a parameter with `nominal` outside the bounds is
rejected. -/
theorem mkParameter_validation_witness :
    mkParameter 0.4 0.6 0.5 0.05 = Except.ok (⟨0.4, 0.6, 0.5, 0.05⟩ : Parameter) ∧
    mkParameter 0 1 2 1 = Except.error ParameterError.invalidParameter :=
  ⟨(mkParameter_validation.2 0.4 0.6 0.5 0.05).mpr (by norm_num),
   (mkParameter_validation.1 0 1 2 1).mpr (by norm_num)⟩

/-- Modelled from the spec: a SamplePoint is one concrete assignment of
values to all trainable parameters, in declared order. -/
abbrev SamplePoint := List ℚ

/-- Modelled from the spec: the SimulationCache's persisted artifacts — a
key-value store addressable by a key derived from the SamplePoint and a
simulation-settings fingerprint. -/
structure CacheState (R : Type) where
  store : List ((SamplePoint × Nat) × R)

/-- Modelled from the spec: existence check plus load of the persisted
artifact for a key. -/
def lookupArtifact {R : Type} (st : CacheState R) (point : SamplePoint) (fp : Nat) :
    Option R :=
  (st.store.find? (fun e => decide (e.1 = (point, fp)))).map (fun e => e.2)

/-- Modelled from the spec: `get_or_compute(point, fingerprint, compute,
overwrite)` — if a persisted artifact for the key exists and `overwrite`
is false, load and return it without invoking `compute`; otherwise invoke
`compute(point)`, persist the result under the same key, and return it.
The third component counts how many times `compute` was invoked. -/
def get_or_compute {R : Type} (st : CacheState R) (point : SamplePoint) (fp : Nat)
    (compute : SamplePoint → R) (overwrite : Bool) : R × CacheState R × Nat :=
  match overwrite, lookupArtifact st point fp with
  | false, some r => (r, st, 0)
  | false, none => (compute point, ⟨((point, fp), compute point) :: st.store⟩, 1)
  | true, _ => (compute point, ⟨((point, fp), compute point) :: st.store⟩, 1)

theorem lookupArtifact_insert {R : Type} (store : List ((SamplePoint × Nat) × R))
    (point : SamplePoint) (fp : Nat) (r : R) :
    lookupArtifact ⟨((point, fp), r) :: store⟩ point fp = some r := by
  simp [lookupArtifact]

/-- C3: calling `get_or_compute` twice with the same key and
`overwrite = false` invokes the `compute` callback at most once in total;
the second call never invokes it and returns a result identical to the
first call's. -/
theorem get_or_compute_idempotent :
    ∀ (R : Type) (st : CacheState R) (point : SamplePoint) (fp : Nat)
      (compute : SamplePoint → R),
      (get_or_compute st point fp compute false).2.2
          + (get_or_compute (get_or_compute st point fp compute false).2.1
              point fp compute false).2.2 ≤ 1 ∧
      (get_or_compute (get_or_compute st point fp compute false).2.1
          point fp compute false).1
        = (get_or_compute st point fp compute false).1 ∧
      (get_or_compute (get_or_compute st point fp compute false).2.1
          point fp compute false).2.2 = 0 := by
  intro R st point fp compute
  cases h : lookupArtifact st point fp with
  | some r => simp [get_or_compute, h]
  | none => simp [get_or_compute, h, lookupArtifact_insert]

/-- Modelled from the spec: the cache front-end for a fallible simulation
collaborator — if `compute` raises, no artifact is persisted and the
exception propagates to the caller. -/
def get_or_compute_fallible {R E : Type} (st : CacheState R) (point : SamplePoint)
    (fp : Nat) (compute : SamplePoint → Except E R) (overwrite : Bool) :
    Except E R × CacheState R :=
  match overwrite, lookupArtifact st point fp with
  | false, some r => (Except.ok r, st)
  | _, _ =>
      match compute point with
      | Except.ok r => (Except.ok r, ⟨((point, fp), r) :: st.store⟩)
      | Except.error e => (Except.error e, st)

/-- Modelled from the spec: the sweep's configured failure mode —
abort-on-first-failure versus best-effort skip-and-record. -/
inductive SweepMode where
  | abort
  | bestEffort
deriving DecidableEq

/-- Modelled from the spec: the outcome of `get_all_inputs_outputs` —
either `SweepAbortedError` carrying the failed SamplePoint and cause, or
the collected rows plus the recorded list of failed points. -/
inductive SweepOutcome (R E : Type) where
  | aborted (point : SamplePoint) (cause : E)
  | done (rows : List (SamplePoint × R)) (failures : List SamplePoint)
deriving DecidableEq

/-- Modelled from the spec: the per-point sweep orchestration of
`get_all_inputs_outputs` — each point's simulation either succeeds
(contributing a row) or fails (aborting the sweep in abort mode, or being
recorded and excluded in best-effort mode). -/
def runSweep {R E : Type} (compute : SamplePoint → Except E R) (mode : SweepMode) :
    List SamplePoint → SweepOutcome R E
  | [] => SweepOutcome.done [] []
  | p :: rest =>
    match compute p with
    | Except.ok r =>
      match runSweep compute mode rest with
      | SweepOutcome.aborted q e => SweepOutcome.aborted q e
      | SweepOutcome.done rows fails => SweepOutcome.done ((p, r) :: rows) fails
    | Except.error e =>
      match mode with
      | SweepMode.abort => SweepOutcome.aborted p e
      | SweepMode.bestEffort =>
        match runSweep compute mode rest with
        | SweepOutcome.aborted q e2 => SweepOutcome.aborted q e2
        | SweepOutcome.done rows fails => SweepOutcome.done rows (p :: fails)

theorem fallible_no_persist {R E : Type} (st : CacheState R) (point : SamplePoint)
    (fp : Nat) (compute : SamplePoint → Except E R) (e : E)
    (hmiss : lookupArtifact st point fp = none)
    (hfail : compute point = Except.error e) :
    get_or_compute_fallible st point fp compute false = (Except.error e, st) := by
  simp [get_or_compute_fallible, hmiss, hfail]

theorem runSweep_abort_at {R E : Type} (compute : SamplePoint → Except E R)
    (pre : List SamplePoint) (p : SamplePoint) (post : List SamplePoint) (e : E)
    (hok : ∀ q ∈ pre, (compute q).isOk = true)
    (hfail : compute p = Except.error e) :
    runSweep compute SweepMode.abort (pre ++ p :: post) = SweepOutcome.aborted p e := by
  induction pre with
  | nil => simp [runSweep, hfail]
  | cons q pre ih =>
      have hq := hok q (List.mem_cons_self q pre)
      cases hcq : compute q with
      | error e2 => rw [hcq] at hq; simp [Except.isOk, Except.toBool] at hq
      | ok r =>
          have := ih (fun q hq2 => hok q (List.mem_cons_of_mem _ hq2))
          simp only [List.cons_append, runSweep, hcq, List.append_eq, this]

theorem runSweep_bestEffort {R E : Type} (compute : SamplePoint → Except E R)
    (grid : List SamplePoint) :
    runSweep compute SweepMode.bestEffort grid
      = SweepOutcome.done
          (grid.filterMap (fun q =>
            match compute q with
            | Except.ok r => some (q, r)
            | Except.error _ => none))
          (grid.filter (fun q => !(compute q).isOk)) := by
  induction grid with
  | nil => simp [runSweep]
  | cons q rest ih =>
      cases hcq : compute q with
      | ok r =>
          simp only [runSweep, hcq, ih, List.filterMap_cons, List.filter_cons]
          simp [hcq, Except.isOk, Except.toBool]
      | error e =>
          simp only [runSweep, hcq, ih, List.filterMap_cons, List.filter_cons]
          simp [hcq, Except.isOk, Except.toBool]

/-- C4: when the simulation collaborator fails on a point, no artifact is
persisted for that key and the failure is surfaced: the cache front-end
returns the error with the store unchanged; in abort mode the sweep ends in
`SweepAbortedError` referencing that exact SamplePoint; in best-effort mode
the failed point's row is excluded and the point is recorded in the failure
list, with every produced row coming from a successful simulation (never a
guessed value). -/
theorem sweep_failure_semantics :
    (∀ (R E : Type) (st : CacheState R) (point : SamplePoint) (fp : Nat)
        (compute : SamplePoint → Except E R) (e : E),
        lookupArtifact st point fp = none → compute point = Except.error e →
        get_or_compute_fallible st point fp compute false = (Except.error e, st)) ∧
    (∀ (R E : Type) (compute : SamplePoint → Except E R)
        (pre : List SamplePoint) (p : SamplePoint) (post : List SamplePoint) (e : E),
        (∀ q ∈ pre, (compute q).isOk = true) → compute p = Except.error e →
        runSweep compute SweepMode.abort (pre ++ p :: post)
          = SweepOutcome.aborted p e) ∧
    (∀ (R E : Type) (compute : SamplePoint → Except E R) (grid : List SamplePoint),
        runSweep compute SweepMode.bestEffort grid
          = SweepOutcome.done
              (grid.filterMap (fun q =>
                match compute q with
                | Except.ok r => some (q, r)
                | Except.error _ => none))
              (grid.filter (fun q => !(compute q).isOk))) :=
  ⟨fun _ _ st point fp compute e hmiss hfail =>
      fallible_no_persist st point fp compute e hmiss hfail,
   fun _ _ compute pre p post e hok hfail =>
      runSweep_abort_at compute pre p post e hok hfail,
   fun _ _ compute grid => runSweep_bestEffort compute grid⟩

/-- The 15-point sample grid used to witness C4's failure semantics. -/
def failGrid : List SamplePoint :=
  [[0], [1], [2], [3], [4], [5], [6], [7], [8], [9], [10], [11], [12], [13], [14]]

/-- A simulation collaborator that fails on the 7th of `failGrid`'s 15
points and succeeds elsewhere. -/
def failCompute : SamplePoint → Except Unit Nat :=
  fun q => if q = [(6 : ℚ)] then Except.error () else Except.ok 0

/-- Witness for C4: on a 15-point grid whose 7th point fails, abort mode
surfaces `SweepAbortedError` referencing exactly that point, and
best-effort mode yields 14 rows plus a failure list containing exactly that
point. -/
theorem sweep_failure_semantics_witness :
    runSweep failCompute SweepMode.abort failGrid
      = SweepOutcome.aborted [(6 : ℚ)] () ∧
    runSweep failCompute SweepMode.bestEffort failGrid
      = SweepOutcome.done
          (failGrid.filterMap (fun q =>
            match failCompute q with
            | Except.ok r => some (q, r)
            | Except.error _ => none))
          (failGrid.filter (fun q => !(failCompute q).isOk)) ∧
    (failGrid.filterMap (fun q =>
        match failCompute q with
        | Except.ok r => some (q, r)
        | Except.error _ => none)).length = 14 ∧
    failGrid.filter (fun q => !(failCompute q).isOk) = [[(6 : ℚ)]] := by
  refine ⟨?_, sweep_failure_semantics.2.2 Nat Unit failCompute failGrid, by decide, by decide⟩
  exact sweep_failure_semantics.2.1 Nat Unit failCompute
    [[0], [1], [2], [3], [4], [5]] [(6 : ℚ)]
    [[7], [8], [9], [10], [11], [12], [13], [14]] () (by decide) rfl

/-- Modelled from the spec: a query value passed to `sdict` — either a
scalar or an array, per parameter name. -/
inductive QueryValue where
  | scalar (v : ℚ)
  | array (vs : List ℚ)
deriving DecidableEq

/-- Modelled from the spec: the common shape of an `sdict` query — a flat
dict of scalars, or arrays of one common length. -/
inductive QueryShape where
  | scalarShape
  | arrayShape (n : Nat)
deriving DecidableEq

/-- Modelled from the spec: the validation error raised when `sdict`'s
array-valued inputs have mismatched lengths. -/
inductive SdictError where
  | mismatchedLengths
deriving DecidableEq

/-- The shape of a single query value. -/
def QueryValue.shape : QueryValue → QueryShape
  | QueryValue.scalar _ => QueryShape.scalarShape
  | QueryValue.array vs => QueryShape.arrayShape vs.length

/-- Modelled from the spec: the strict broadcast check — all keys must be
scalars, or all keys must map to arrays of one common length; anything else
is a validation error, never a silent broadcast. -/
def validateShapes (ps : List (String × QueryValue)) : Except SdictError QueryShape :=
  match ps with
  | [] => Except.ok QueryShape.scalarShape
  | (_, v) :: rest =>
      if rest.all (fun e => decide (e.2.shape = v.shape)) then Except.ok v.shape
      else Except.error SdictError.mismatchedLengths

/-- Modelled from the spec: a fitted Model reduced to its inference
surface — the port-pair keys of the S-parameter dictionary and the
evaluation of the fitted interpolator plus the subclass `sdict`-construction
hook at one scalar-valued parameter assignment. -/
structure FittedModel where
  portPairs : List String
  evalAt : String → List (String × ℚ) → ℚ

/-- The scalar carried by a query value (first array entry for arrays). -/
def scalarOf : QueryValue → ℚ
  | QueryValue.scalar v => v
  | QueryValue.array vs => vs.getD 0 0

/-- The `i`-th scalar slice of a batched query. -/
def sliceAt (ps : List (String × QueryValue)) (i : Nat) : List (String × ℚ) :=
  ps.map (fun e =>
    (e.1, match e.2 with
          | QueryValue.scalar v => v
          | QueryValue.array vs => vs.getD i 0))

/-- Modelled from the spec: `sdict(params)` — validate the common query
shape, then produce one S-parameter entry per port pair: a scalar for a
scalar query, or an array of the common length for a batched query. -/
def FittedModel.sdict (m : FittedModel) (ps : List (String × QueryValue)) :
    Except SdictError (List (String × QueryValue)) :=
  match validateShapes ps with
  | Except.error e => Except.error e
  | Except.ok QueryShape.scalarShape =>
      Except.ok (m.portPairs.map (fun pp =>
        (pp, QueryValue.scalar (m.evalAt pp (ps.map (fun e => (e.1, scalarOf e.2)))))))
  | Except.ok (QueryShape.arrayShape n) =>
      Except.ok (m.portPairs.map (fun pp =>
        (pp, QueryValue.array ((List.range n).map (fun i => m.evalAt pp (sliceAt ps i))))))

/-- C5: `sdict` accepts a flat dict of scalars (returning scalar entries)
or a dict where every key maps to same-length arrays (returning arrays of
that same length for every port-pair key); mismatched array lengths across
keys raise a validation error instead of silently broadcasting — in
particular `{"width": [0.5, 0.6], "wavelength": [1.55]}` is rejected. -/
theorem sdict_broadcast_contract :
    (∀ (m : FittedModel) (ps : List (String × QueryValue)) (n : Nat),
        validateShapes ps = Except.ok (QueryShape.arrayShape n) →
        ∃ out, m.sdict ps = Except.ok out ∧
          ∀ e ∈ out, ∃ vs, e.2 = QueryValue.array vs ∧ vs.length = n) ∧
    (∀ (m : FittedModel) (ps : List (String × QueryValue)),
        validateShapes ps = Except.ok QueryShape.scalarShape →
        ∃ out, m.sdict ps = Except.ok out ∧
          ∀ e ∈ out, ∃ v, e.2 = QueryValue.scalar v) ∧
    (∀ (m : FittedModel) (ps : List (String × QueryValue)) (err : SdictError),
        validateShapes ps = Except.error err → m.sdict ps = Except.error err) ∧
    (∀ m : FittedModel,
        m.sdict [("width", QueryValue.array [0.5, 0.6]),
                 ("wavelength", QueryValue.array [1.55])]
          = Except.error SdictError.mismatchedLengths) := by
  refine ⟨?_, ?_, ?_, ?_⟩
  · intro m ps n h
    refine ⟨m.portPairs.map (fun pp =>
        (pp, QueryValue.array ((List.range n).map (fun i => m.evalAt pp (sliceAt ps i))))),
      by simp [FittedModel.sdict, h], ?_⟩
    intro e he
    obtain ⟨pp, _, rfl⟩ := List.mem_map.mp he
    exact ⟨_, rfl, by simp⟩
  · intro m ps h
    refine ⟨m.portPairs.map (fun pp =>
        (pp, QueryValue.scalar (m.evalAt pp (ps.map (fun e => (e.1, scalarOf e.2)))))),
      by simp [FittedModel.sdict, h], ?_⟩
    intro e he
    obtain ⟨pp, _, rfl⟩ := List.mem_map.mp he
    exact ⟨_, rfl⟩
  · intro m ps err h
    simp [FittedModel.sdict, h]
  · intro m
    have h : validateShapes [("width", QueryValue.array [0.5, 0.6]),
        ("wavelength", QueryValue.array [1.55])]
        = Except.error SdictError.mismatchedLengths := rfl
    simp [FittedModel.sdict, h]

/-- A one-port fitted model used to witness C5's broadcast contract. -/
def demoModel : FittedModel := ⟨["o1@0,o2@0"], fun _ _ => 0⟩

/-- Witness for C5: the batched query
`{"width": [0.5, 0.6], "wavelength": [1.55, 1.55]}` yields arrays of length
2 for every port-pair key of a concrete fitted model. -/
theorem sdict_broadcast_contract_witness :
    ∃ out,
      demoModel.sdict [("width", QueryValue.array [0.5, 0.6]),
          ("wavelength", QueryValue.array [1.55, 1.55])]
        = Except.ok out ∧
      ∀ e ∈ out, ∃ vs, e.2 = QueryValue.array vs ∧ vs.length = 2 :=
  sdict_broadcast_contract.1 demoModel
    [("width", QueryValue.array [0.5, 0.6]), ("wavelength", QueryValue.array [1.55, 1.55])]
    2 rfl

/-- Modelled from the spec: the external layer-stack collaborator — a
mapping from layer names to thicknesses. -/
structure LayerStack where
  layers : List (String × ℚ)
deriving DecidableEq

/-- Read the thickness of a layer. -/
def LayerStack.thicknessOf (ls : LayerStack) (layername : String) : Option ℚ :=
  (ls.layers.find? (fun e => decide (e.1 = layername))).map (fun e => e.2)

/-- Modelled from the spec: "return a copy with thickness of layer L set
to v" — a new LayerStack value; the receiver is untouched. -/
def LayerStack.withThickness (ls : LayerStack) (layername : String) (v : ℚ) : LayerStack :=
  ⟨ls.layers.map (fun e => if e.1 = layername then (e.1, v) else e)⟩

/-- Modelled from the spec: `LayerStackThickness` — a derived Parameter
referencing an external layer stack and a layer name. -/
structure LayerStackThickness where
  layer_stack : LayerStack
  layername : String
  min_value : ℚ
  max_value : ℚ
  nominal_value : ℚ
  step : ℚ

/-- Modelled from the spec: `materialize(value)` returns a new, cloned
layer stack with the targeted layer's thickness set to `value`, for the
simulation collaborator to use instead of the original. -/
def LayerStackThickness.materialize (p : LayerStackThickness) (v : ℚ) : LayerStack :=
  p.layer_stack.withThickness p.layername v

/-- Modelled from the spec: the Model state a derived-parameter sweep
operates on — the caller's layer stack plus the collected input/output
rows. -/
structure ModelState where
  layer_stack : LayerStack
  input_rows : List (List ℚ)
  output_rows : List (List ℚ)

/-- Modelled from the spec: sweeping a derived parameter — for every
sample value the simulation collaborator receives the materialized copy,
while the Model keeps the caller's original layer stack. -/
def runThicknessSweep (st : ModelState) (p : LayerStackThickness)
    (simulate : LayerStack → ℚ → List ℚ) (values : List ℚ) : ModelState :=
  { layer_stack := st.layer_stack,
    input_rows := st.input_rows ++ values.map (fun v => [v]),
    output_rows := st.output_rows ++ values.map (fun v => simulate (p.materialize v) v) }

theorem withThickness_self (layers : List (String × ℚ)) (name : String) (v : ℚ)
    (h : (LayerStack.thicknessOf ⟨layers⟩ name).isSome = true) :
    (LayerStack.withThickness ⟨layers⟩ name v).thicknessOf name = some v := by
  induction layers with
  | nil => simp [LayerStack.thicknessOf] at h
  | cons e rest ih =>
      by_cases he : e.1 = name
      · simp [LayerStack.withThickness, LayerStack.thicknessOf, List.find?, he]
      · have h' : (LayerStack.thicknessOf ⟨rest⟩ name).isSome = true := by
          simpa [LayerStack.thicknessOf, List.find?, he] using h
        have := ih h'
        simpa [LayerStack.withThickness, LayerStack.thicknessOf, List.find?, he] using this

theorem withThickness_other (layers : List (String × ℚ)) (name other : String) (v : ℚ)
    (hne : other ≠ name) :
    (LayerStack.withThickness ⟨layers⟩ name v).thicknessOf other
      = LayerStack.thicknessOf ⟨layers⟩ other := by
  induction layers with
  | nil => simp [LayerStack.withThickness, LayerStack.thicknessOf]
  | cons e rest ih =>
      have hne' : name ≠ other := fun hh => hne hh.symm
      by_cases he : e.1 = name
      · simpa [LayerStack.withThickness, LayerStack.thicknessOf, List.find?, he, hne'] using ih
      · by_cases ho : e.1 = other
        · simp [LayerStack.withThickness, LayerStack.thicknessOf, List.find?, he, ho, hne, hne']
        · simpa [LayerStack.withThickness, LayerStack.thicknessOf, List.find?, he, ho] using ih

/-- C7: `materialize(v)` returns a new layer stack whose targeted layer has
thickness `v` while every other layer keeps its thickness, and a Model
sweep over a derived parameter passes the materialized copies to the
simulation collaborator while its own layer stack — the one supplied by the
caller — is left exactly as it was. -/
theorem layer_stack_materialize_frame :
    (∀ (p : LayerStackThickness) (v : ℚ),
        (p.layer_stack.thicknessOf p.layername).isSome = true →
        (p.materialize v).thicknessOf p.layername = some v) ∧
    (∀ (p : LayerStackThickness) (v : ℚ) (other : String),
        other ≠ p.layername →
        (p.materialize v).thicknessOf other = p.layer_stack.thicknessOf other) ∧
    (∀ (st : ModelState) (p : LayerStackThickness)
        (simulate : LayerStack → ℚ → List ℚ) (values : List ℚ),
        (runThicknessSweep st p simulate values).layer_stack = st.layer_stack ∧
        (runThicknessSweep st p simulate values).output_rows
          = st.output_rows ++ values.map (fun v => simulate (p.materialize v) v)) := by
  refine ⟨?_, ?_, ?_⟩
  · intro p v h
    exact withThickness_self p.layer_stack.layers p.layername v h
  · intro p v other hne
    exact withThickness_other p.layer_stack.layers p.layername other v hne
  · intro st p simulate values
    exact ⟨rfl, rfl⟩

/-- The layer stack of the C7 witness. -/
def demoStack : LayerStack := ⟨[("core", 0.22), ("slab90", 0.09)]⟩

/-- The derived core-thickness parameter of the C7 witness. -/
def demoThickness : LayerStackThickness := ⟨demoStack, "core", 0.21, 0.23, 0.22, 0.1⟩

/-- Witness for C7 at a concrete layer stack: materializing 0.21 sets the
core thickness to 0.21, leaves the slab layer's thickness as in the
original stack, and a sweep leaves the Model's layer stack unchanged. -/
theorem layer_stack_materialize_frame_witness :
    (demoThickness.materialize 0.21).thicknessOf "core" = some 0.21 ∧
    (demoThickness.materialize 0.21).thicknessOf "slab90"
      = demoStack.thicknessOf "slab90" ∧
    (runThicknessSweep ⟨demoStack, [], []⟩ demoThickness (fun _ v => [v])
        [0.21, 0.23]).layer_stack = demoStack :=
  ⟨layer_stack_materialize_frame.1 demoThickness 0.21 (by decide),
   layer_stack_materialize_frame.2.1 demoThickness 0.21 "slab90" (by decide),
   (layer_stack_materialize_frame.2.2 ⟨demoStack, [], []⟩ demoThickness
      (fun _ v => [v]) [0.21, 0.23]).1⟩

/-- Modelled from the spec: piecewise-linear interpolation over sorted
training points with nearest-neighbor extrapolation outside the training
range — queries outside the convex hull return the nearest training
output instead of raising. -/
def predictLinear : List (ℚ × ℚ) → ℚ → Option ℚ
  | [], _ => none
  | [(_, y0)], _ => some y0
  | (x0, y0) :: (x1, y1) :: rest, x =>
    if x ≤ x0 then some y0
    else if x ≤ x1 then some (y0 + (y1 - y0) * (x - x0) / (x1 - x0))
    else predictLinear ((x1, y1) :: rest) x

theorem predictLinear_below (x0 : ℚ) (y0 : ℚ) (rest : List (ℚ × ℚ)) (x : ℚ)
    (h : x ≤ x0) : predictLinear ((x0, y0) :: rest) x = some y0 := by
  cases rest with
  | nil => rfl
  | cons q t =>
      obtain ⟨x1, y1⟩ := q
      simp [predictLinear, h]

theorem predictLinear_above (pts : List (ℚ × ℚ)) (x : ℚ)
    (h : ∀ q ∈ pts, q.1 < x) :
    predictLinear pts x = pts.getLast?.map (fun q => q.2) := by
  induction pts with
  | nil => rfl
  | cons p tl ih =>
      obtain ⟨x0, y0⟩ := p
      cases tl with
      | nil => simp [predictLinear]
      | cons q t =>
          obtain ⟨x1, y1⟩ := q
          have h0 : x0 < x := h (x0, y0) (List.mem_cons_self _ _)
          have h1 : x1 < x := h (x1, y1) (List.mem_cons_of_mem _ (List.mem_cons_self _ _))
          have ht := ih (fun q hq => h q (List.mem_cons_of_mem _ hq))
          simp only [predictLinear, if_neg (not_le.mpr h0), if_neg (not_le.mpr h1)]
          rw [ht]
          rw [List.getLast?_cons_cons]

theorem predictLinear_total (pts : List (ℚ × ℚ)) (x : ℚ) (h : pts ≠ []) :
    (predictLinear pts x).isSome = true := by
  induction pts with
  | nil => exact absurd rfl h
  | cons p tl ih =>
      obtain ⟨x0, y0⟩ := p
      cases tl with
      | nil => rfl
      | cons q t =>
          obtain ⟨x1, y1⟩ := q
          by_cases h0 : x ≤ x0
          · simp [predictLinear, h0]
          · by_cases h1 : x ≤ x1
            · simp [predictLinear, h0, h1]
            · simp only [predictLinear, if_neg h0, if_neg h1]
              exact ih (List.cons_ne_nil _ _)

/-- C9: the interpolator falls back to nearest-neighbor extrapolation
outside the convex hull of training inputs and always returns a result
rather than raising: queries at or below the first (smallest) training
input return its output, queries above every training input return the
last (largest) training input's output, evaluation is total on any
nonempty training set, and for training inputs covering `[0.4, 0.6]` the
queries 0.3 and 0.65 return the outputs at 0.4 and 0.6 respectively. -/
theorem interpolation_extrapolation_fallback :
    (∀ (x0 y0 : ℚ) (rest : List (ℚ × ℚ)) (x : ℚ), x ≤ x0 →
        predictLinear ((x0, y0) :: rest) x = some y0) ∧
    (∀ (pts : List (ℚ × ℚ)) (x : ℚ), (∀ q ∈ pts, q.1 < x) →
        predictLinear pts x = pts.getLast?.map (fun q => q.2)) ∧
    (∀ (pts : List (ℚ × ℚ)) (x : ℚ), pts ≠ [] →
        (predictLinear pts x).isSome = true) ∧
    (∀ y1 y2 y3 y4 y5 : ℚ,
        predictLinear [(0.4, y1), (0.45, y2), (0.5, y3), (0.55, y4), (0.6, y5)] 0.3
          = some y1 ∧
        predictLinear [(0.4, y1), (0.45, y2), (0.5, y3), (0.55, y4), (0.6, y5)] 0.65
          = some y5) := by
  refine ⟨predictLinear_below, predictLinear_above, predictLinear_total, ?_⟩
  intro y1 y2 y3 y4 y5
  constructor
  · exact predictLinear_below 0.4 y1 _ 0.3 (by norm_num)
  · rw [predictLinear_above _ 0.65 (by
      intro q hq
      simp at hq
      rcases hq with h | h | h | h | h <;> rw [h] <;> norm_num)]
    rfl

/-- Witness for C9 at concrete training data over `[0.4, 0.6]`: the
below-hull query 0.3 returns the output at 0.4 and the above-hull query
0.65 returns the output at 0.6. -/
theorem interpolation_extrapolation_fallback_witness :
    predictLinear [(0.4, 2), (0.6, 7)] 0.3 = some 2 ∧
    predictLinear [(0.4, 2), (0.6, 7)] 0.65 = some 7 ∧
    (predictLinear [(0.4, 2), (0.6, 7)] 0.5).isSome = true := by
  refine ⟨interpolation_extrapolation_fallback.1 0.4 2 [(0.6, 7)] 0.3 (by norm_num), ?_,
    interpolation_extrapolation_fallback.2.2.1 [(0.4, 2), (0.6, 7)] 0.5 (by simp)⟩
  rw [interpolation_extrapolation_fallback.2.1 [(0.4, 2), (0.6, 7)] 0.65 (by
    intro q hq
    simp at hq
    rcases hq with h | h <;> rw [h] <;> norm_num)]
  rfl

end GplSax
